import Mathlib

/-!
Verification of the ConfigurationStore of the DGD-avatar repository.

The store is a flat record of session-configuration fields with one setter
per field, derived boolean queries, a session-options payload builder, a
reset operation, a validator, and a persistence partition function.

Modelling conventions:
- JavaScript string truthiness: the empty string is the only falsy string,
  so a guard of the form `!state.x` on a string field is embedded as
  `x = ""`.
- A TypeScript value of type `T | undefined` is embedded as `Option T`;
  an object property assigned `undefined` (the `x || undefined` idiom) is
  modelled as the property being absent (`none`), which is the
  JSON-serialization view of the payload object.
- The fields typed `SceneMode | ''` and `E2EType | ''` are embedded as
  `Option SceneMode` and `Option E2EType`, with `none` standing for the
  empty string.
- `voiceParams : Record<string, unknown>` is embedded as an association
  list `List (String × α)` for an arbitrary value type `α`; the store only
  ever inspects the number of keys.
- Numeric fields (`sessionDuration`, `modeType`) are embedded as `Int`.
-/

namespace ConfigurationStore

inductive StreamProviderType
  | agora
  | livekit
  | trtc
deriving DecidableEq

inductive AuthMethod
  | token
  | apiKey
deriving DecidableEq

inductive SceneMode
  | fast_dialogue
  | meeting
deriving DecidableEq

inductive E2EType
  | openai
deriving DecidableEq

inductive MediaQuality
  | low
  | medium
  | high
deriving DecidableEq

/-- The data fields of the `ConfigurationState` interface (source lines 6-37),
parametric in the value type of the free-form `voiceParams` mapping. -/
structure ConfigurationState (α : Type) where
  selectedProvider : StreamProviderType
  openapiHost : String
  openapiCredential : String
  authMethod : AuthMethod
  avatarId : String
  voiceId : String
  knowledgeId : String
  sessionDuration : Int
  modeType : Int
  language : String
  sceneMode : Option SceneMode
  e2eType : Option E2EType
  backgroundUrl : String
  voiceUrl : String
  voiceParams : List (String × α)
  videoEnabled : Bool
  audioEnabled : Bool
  videoQuality : MediaQuality
  audioQuality : MediaQuality
deriving DecidableEq

variable {α : Type}

/-! ### Setters (source lines 106-124)

Each zustand action `set({ field })` merges a single-field partial state
into the current state, i.e. it is a single-field record update. -/

def setSelectedProvider (provider : StreamProviderType) (s : ConfigurationState α) : ConfigurationState α :=
  { s with selectedProvider := provider }

def setOpenapiHost (host : String) (s : ConfigurationState α) : ConfigurationState α :=
  { s with openapiHost := host }

def setOpenapiCredential (credential : String) (s : ConfigurationState α) : ConfigurationState α :=
  { s with openapiCredential := credential }

def setAuthMethod (method : AuthMethod) (s : ConfigurationState α) : ConfigurationState α :=
  { s with authMethod := method }

def setAvatarId (avatarId : String) (s : ConfigurationState α) : ConfigurationState α :=
  { s with avatarId := avatarId }

def setVoiceId (voiceId : String) (s : ConfigurationState α) : ConfigurationState α :=
  { s with voiceId := voiceId }

def setKnowledgeId (knowledgeId : String) (s : ConfigurationState α) : ConfigurationState α :=
  { s with knowledgeId := knowledgeId }

def setSessionDuration (duration : Int) (s : ConfigurationState α) : ConfigurationState α :=
  { s with sessionDuration := duration }

def setModeType (modeType : Int) (s : ConfigurationState α) : ConfigurationState α :=
  { s with modeType := modeType }

def setLanguage (language : String) (s : ConfigurationState α) : ConfigurationState α :=
  { s with language := language }

def setSceneMode (sceneMode : Option SceneMode) (s : ConfigurationState α) : ConfigurationState α :=
  { s with sceneMode := sceneMode }

def setE2eType (e2eType : Option E2EType) (s : ConfigurationState α) : ConfigurationState α :=
  { s with e2eType := e2eType }

def setBackgroundUrl (url : String) (s : ConfigurationState α) : ConfigurationState α :=
  { s with backgroundUrl := url }

def setVoiceUrl (url : String) (s : ConfigurationState α) : ConfigurationState α :=
  { s with voiceUrl := url }

def setVoiceParams (params : List (String × α)) (s : ConfigurationState α) : ConfigurationState α :=
  { s with voiceParams := params }

def setVideoEnabled (enabled : Bool) (s : ConfigurationState α) : ConfigurationState α :=
  { s with videoEnabled := enabled }

def setAudioEnabled (enabled : Bool) (s : ConfigurationState α) : ConfigurationState α :=
  { s with audioEnabled := enabled }

def setVideoQuality (quality : MediaQuality) (s : ConfigurationState α) : ConfigurationState α :=
  { s with videoQuality := quality }

def setAudioQuality (quality : MediaQuality) (s : ConfigurationState α) : ConfigurationState α :=
  { s with audioQuality := quality }

/-! ### Derived queries (source lines 127-140) -/

def isApiConfigured (s : ConfigurationState α) : Bool :=
  s.openapiHost != "" && s.openapiCredential != ""

def isAvatarConfigured (s : ConfigurationState α) : Bool :=
  s.avatarId != ""

def isFullyConfigured (s : ConfigurationState α) : Bool :=
  s.openapiHost != "" && s.openapiCredential != "" && s.avatarId != ""

/-! ### Session options payload (source lines 63-76 and 142-158) -/

/-- The return shape of `getSessionOptions`. The fields declared optional in
the TypeScript type are `Option`-valued; `mode_type` and `stream_type` are
declared optional there as well, so they are `Option`-valued here and their
unconditional presence is a theorem, not a typing fact. -/
structure SessionOptions (α : Type) where
  avatar_id : String
  duration : Int
  knowledge_id : Option String
  voice_id : Option String
  voice_url : Option String
  language : Option String
  mode_type : Option Int
  background_url : Option String
  voice_params : Option (List (String × α))
  stream_type : Option StreamProviderType
  scene_mode : Option SceneMode
  e2e_type : Option E2EType
deriving DecidableEq

/-- Embedding of the JavaScript idiom `s || undefined` on a string. -/
def strOrUndefined (s : String) : Option String :=
  if s = "" then none else some s

def getSessionOptions (s : ConfigurationState α) : SessionOptions α :=
  { avatar_id := s.avatarId
    duration := s.sessionDuration
    knowledge_id := strOrUndefined s.knowledgeId
    voice_id := strOrUndefined s.voiceId
    voice_url := strOrUndefined s.voiceUrl
    language := strOrUndefined s.language
    mode_type := some s.modeType
    background_url := strOrUndefined s.backgroundUrl
    voice_params := if 0 < s.voiceParams.length then some s.voiceParams else none
    stream_type := some s.selectedProvider
    scene_mode := s.sceneMode
    e2e_type := s.e2eType }

/-! ### Reset (source lines 160-181) -/

/-- The literal constant defaults written out in `resetToDefaults`. -/
def configDefaults (α : Type) : ConfigurationState α :=
  { selectedProvider := StreamProviderType.agora
    openapiHost := ""
    openapiCredential := ""
    authMethod := AuthMethod.token
    avatarId := ""
    voiceId := ""
    knowledgeId := ""
    sessionDuration := 10
    modeType := 2
    language := "en"
    sceneMode := none
    e2eType := none
    backgroundUrl := ""
    voiceUrl := ""
    voiceParams := []
    videoEnabled := true
    audioEnabled := true
    videoQuality := MediaQuality.medium
    audioQuality := MediaQuality.medium }

/-- `resetToDefaults` is a zustand `set` whose partial state lists every
field with its literal default, so the merge replaces every field. -/
def resetToDefaults (s : ConfigurationState α) : ConfigurationState α :=
  { s with
    selectedProvider := StreamProviderType.agora
    openapiHost := ""
    openapiCredential := ""
    authMethod := AuthMethod.token
    avatarId := ""
    voiceId := ""
    knowledgeId := ""
    sessionDuration := 10
    modeType := 2
    language := "en"
    sceneMode := none
    e2eType := none
    backgroundUrl := ""
    voiceUrl := ""
    voiceParams := []
    videoEnabled := true
    audioEnabled := true
    videoQuality := MediaQuality.medium
    audioQuality := MediaQuality.medium }

/-! ### Validation (source lines 183-207) -/

structure ValidationResult where
  isValid : Bool
  errors : List String
deriving DecidableEq

/-- The sequential accumulation of error messages, mirroring the five
`if (...) errors.push(...)` statements of the source. -/
def validationErrors (s : ConfigurationState α) : List String :=
  let errors : List String := []
  let errors := if s.openapiHost = "" then errors ++ ["OpenAPI host is required"] else errors
  let errors := if s.openapiCredential = "" then
      errors ++ [if s.authMethod = AuthMethod.token then "OpenAPI token is required" else "API key is required"]
    else errors
  let errors := if s.avatarId = "" then errors ++ ["Avatar ID is required"] else errors
  let errors := if s.sessionDuration ≤ 0 then errors ++ ["Session duration must be greater than 0"] else errors
  let errors := if s.modeType < 1 ∨ s.modeType > 3 then errors ++ ["Mode type must be between 1 and 3"] else errors
  errors

def validateConfiguration (s : ConfigurationState α) : ValidationResult :=
  { isValid := (validationErrors s).length == 0
    errors := validationErrors s }

/-! ### Persistence partition (source lines 209-233) -/

/-- The shape of the partitioned snapshot produced by the `partialize`
option of the persist middleware: one field per listed state field. -/
structure PersistedSnapshot (α : Type) where
  selectedProvider : StreamProviderType
  openapiHost : String
  openapiCredential : String
  authMethod : AuthMethod
  avatarId : String
  voiceId : String
  knowledgeId : String
  sessionDuration : Int
  modeType : Int
  language : String
  sceneMode : Option SceneMode
  e2eType : Option E2EType
  backgroundUrl : String
  voiceUrl : String
  voiceParams : List (String × α)
  videoEnabled : Bool
  audioEnabled : Bool
  videoQuality : MediaQuality
  audioQuality : MediaQuality
deriving DecidableEq

/-- Embedding of the `partialize` function (source lines 212-232): it copies
every listed field of the state into the snapshot. -/
def partializeState (s : ConfigurationState α) : PersistedSnapshot α :=
  { selectedProvider := s.selectedProvider
    openapiHost := s.openapiHost
    openapiCredential := s.openapiCredential
    authMethod := s.authMethod
    avatarId := s.avatarId
    voiceId := s.voiceId
    knowledgeId := s.knowledgeId
    sessionDuration := s.sessionDuration
    modeType := s.modeType
    language := s.language
    sceneMode := s.sceneMode
    e2eType := s.e2eType
    backgroundUrl := s.backgroundUrl
    voiceUrl := s.voiceUrl
    voiceParams := s.voiceParams
    videoEnabled := s.videoEnabled
    audioEnabled := s.audioEnabled
    videoQuality := s.videoQuality
    audioQuality := s.audioQuality }

/-- Modelled from the spec: rehydration is performed by the external persist
middleware, not by code under src. Per the spec, the values of a stored
snapshot seed the configuration record field by field; a full snapshot
therefore determines every field of the rehydrated state. -/
def rehydrate (p : PersistedSnapshot α) : ConfigurationState α :=
  { selectedProvider := p.selectedProvider
    openapiHost := p.openapiHost
    openapiCredential := p.openapiCredential
    authMethod := p.authMethod
    avatarId := p.avatarId
    voiceId := p.voiceId
    knowledgeId := p.knowledgeId
    sessionDuration := p.sessionDuration
    modeType := p.modeType
    language := p.language
    sceneMode := p.sceneMode
    e2eType := p.e2eType
    backgroundUrl := p.backgroundUrl
    voiceUrl := p.voiceUrl
    voiceParams := p.voiceParams
    videoEnabled := p.videoEnabled
    audioEnabled := p.audioEnabled
    videoQuality := p.videoQuality
    audioQuality := p.audioQuality }

/-! ### Environment-derived initial state (source lines 84-103)

The environment variables are external inputs; they are modelled as a
record of optional values, with the JavaScript fallback `x || d` embedded
as falling back on a missing or empty value. -/

structure Env where
  streamTypeVar : Option StreamProviderType
  openapiHostVar : Option String
  openapiTokenVar : Option String
  avatarIdVar : Option String
  voiceIdVar : Option String
  modeTypeVar : Option Int
  languageVar : Option String
  backgroundUrlVar : Option String
  voiceUrlVar : Option String

/-- Embedding of `import.meta.env.X || d` for a string default: an unset or
empty environment value falls back to the default. -/
def envStrOr (v : Option String) (d : String) : String :=
  match v with
  | none => d
  | some s => if s = "" then d else s

def initialState (α : Type) (e : Env) : ConfigurationState α :=
  { selectedProvider := e.streamTypeVar.getD StreamProviderType.agora
    openapiHost := envStrOr e.openapiHostVar ("")
    openapiCredential := envStrOr e.openapiTokenVar ("")
    authMethod := AuthMethod.token
    avatarId := envStrOr e.avatarIdVar ("")
    voiceId := envStrOr e.voiceIdVar ("")
    knowledgeId := ""
    sessionDuration := 10
    modeType := match e.modeTypeVar with
      | none => 2
      | some n => if n = 0 then 2 else n
    language := envStrOr e.languageVar ("en")
    sceneMode := none
    e2eType := none
    backgroundUrl := envStrOr e.backgroundUrlVar ("")
    voiceUrl := envStrOr e.voiceUrlVar ("")
    voiceParams := []
    videoEnabled := true
    audioEnabled := true
    videoQuality := MediaQuality.medium
    audioQuality := MediaQuality.medium }

/-! ### A field index for the setter round-trip and frame properties -/

inductive Field
  | selectedProvider
  | openapiHost
  | openapiCredential
  | authMethod
  | avatarId
  | voiceId
  | knowledgeId
  | sessionDuration
  | modeType
  | language
  | sceneMode
  | e2eType
  | backgroundUrl
  | voiceUrl
  | voiceParams
  | videoEnabled
  | audioEnabled
  | videoQuality
  | audioQuality
deriving DecidableEq

def FieldType (α : Type) : Field → Type
  | .selectedProvider => StreamProviderType
  | .openapiHost => String
  | .openapiCredential => String
  | .authMethod => AuthMethod
  | .avatarId => String
  | .voiceId => String
  | .knowledgeId => String
  | .sessionDuration => Int
  | .modeType => Int
  | .language => String
  | .sceneMode => Option SceneMode
  | .e2eType => Option E2EType
  | .backgroundUrl => String
  | .voiceUrl => String
  | .voiceParams => List (String × α)
  | .videoEnabled => Bool
  | .audioEnabled => Bool
  | .videoQuality => MediaQuality
  | .audioQuality => MediaQuality

/-- Reading one field of the state. -/
def getField (f : Field) (s : ConfigurationState α) : FieldType α f :=
  match f with
  | .selectedProvider => s.selectedProvider
  | .openapiHost => s.openapiHost
  | .openapiCredential => s.openapiCredential
  | .authMethod => s.authMethod
  | .avatarId => s.avatarId
  | .voiceId => s.voiceId
  | .knowledgeId => s.knowledgeId
  | .sessionDuration => s.sessionDuration
  | .modeType => s.modeType
  | .language => s.language
  | .sceneMode => s.sceneMode
  | .e2eType => s.e2eType
  | .backgroundUrl => s.backgroundUrl
  | .voiceUrl => s.voiceUrl
  | .voiceParams => s.voiceParams
  | .videoEnabled => s.videoEnabled
  | .audioEnabled => s.audioEnabled
  | .videoQuality => s.videoQuality
  | .audioQuality => s.audioQuality

/-- Dispatch to the setter of one field. -/
def setField (f : Field) (v : FieldType α f) (s : ConfigurationState α) : ConfigurationState α :=
  match f, v with
  | .selectedProvider, v => setSelectedProvider v s
  | .openapiHost, v => setOpenapiHost v s
  | .openapiCredential, v => setOpenapiCredential v s
  | .authMethod, v => setAuthMethod v s
  | .avatarId, v => setAvatarId v s
  | .voiceId, v => setVoiceId v s
  | .knowledgeId, v => setKnowledgeId v s
  | .sessionDuration, v => setSessionDuration v s
  | .modeType, v => setModeType v s
  | .language, v => setLanguage v s
  | .sceneMode, v => setSceneMode v s
  | .e2eType, v => setE2eType v s
  | .backgroundUrl, v => setBackgroundUrl v s
  | .voiceUrl, v => setVoiceUrl v s
  | .voiceParams, v => setVoiceParams v s
  | .videoEnabled, v => setVideoEnabled v s
  | .audioEnabled, v => setAudioEnabled v s
  | .videoQuality, v => setVideoQuality v s
  | .audioQuality, v => setAudioQuality v s

/-! ### Concrete scenario states -/

/-- Scenario A of the spec: empty host, credential and avatar id, token
auth, all other fields valid. -/
def scenarioA : ConfigurationState Unit :=
  configDefaults Unit

/-- Scenario C of the spec: fully configured except modeType = 5. -/
def scenarioC : ConfigurationState Unit :=
  { configDefaults Unit with
    openapiHost := "h"
    openapiCredential := "c"
    avatarId := "a"
    modeType := 5 }

/-- Scenario D of the spec: avatarId av1, duration 10, modeType 2, every
optional string field empty, empty voiceParams. -/
def scenarioD : ConfigurationState Unit :=
  { configDefaults Unit with
    avatarId := "av1"
    language := "" }

/-- A deliberately invalid state: empty avatar id and negative duration. -/
def scenarioInvalid : ConfigurationState Unit :=
  { configDefaults Unit with
    sessionDuration := -3 }

/-! ### Helper lemmas -/

theorem strOrUndefined_eq_none_iff (x : String) : strOrUndefined x = none ↔ x = "" := by
  unfold strOrUndefined
  split <;> simp_all

theorem strOrUndefined_ne_some_empty (x : String) : strOrUndefined x ≠ some ("") := by
  unfold strOrUndefined
  split <;> simp_all

/-- The accumulated error list equals the ordered concatenation of the five
independent rule segments. -/
theorem validationErrors_append_form (s : ConfigurationState α) :
    validationErrors s =
      (if s.openapiHost = "" then ["OpenAPI host is required"] else []) ++
      (if s.openapiCredential = "" then
        [if s.authMethod = AuthMethod.token then "OpenAPI token is required" else "API key is required"]
       else []) ++
      (if s.avatarId = "" then ["Avatar ID is required"] else []) ++
      (if s.sessionDuration ≤ 0 then ["Session duration must be greater than 0"] else []) ++
      (if s.modeType < 1 ∨ s.modeType > 3 then ["Mode type must be between 1 and 3"] else []) := by
  unfold validationErrors
  split_ifs <;> rfl

/-! ### Claim theorems -/

/-- Claim C1: in every session-options payload, avatar_id and duration are
always present; knowledge_id, voice_id, voice_url, language and
background_url are present exactly when the corresponding store field is
non-empty and are never present with an empty-string value; mode_type is
always present; voice_params is present exactly when the mapping has at
least one key; stream_type always carries the selected provider; scene_mode
and e2e_type are present exactly when non-empty. At the Scenario D state the
payload is exactly avatar_id av1, duration 10, mode_type 2, stream_type
agora, every other entry absent. -/
theorem getSessionOptions_omits_empty_optionals (β : Type) (s : ConfigurationState β) :
    ((getSessionOptions s).avatar_id = s.avatarId) ∧
    ((getSessionOptions s).duration = s.sessionDuration) ∧
    ((getSessionOptions s).knowledge_id = none ↔ s.knowledgeId = "") ∧
    ((getSessionOptions s).knowledge_id ≠ some ("")) ∧
    ((getSessionOptions s).voice_id = none ↔ s.voiceId = "") ∧
    ((getSessionOptions s).voice_id ≠ some ("")) ∧
    ((getSessionOptions s).voice_url = none ↔ s.voiceUrl = "") ∧
    ((getSessionOptions s).voice_url ≠ some ("")) ∧
    ((getSessionOptions s).language = none ↔ s.language = "") ∧
    ((getSessionOptions s).language ≠ some ("")) ∧
    ((getSessionOptions s).background_url = none ↔ s.backgroundUrl = "") ∧
    ((getSessionOptions s).background_url ≠ some ("")) ∧
    ((getSessionOptions s).mode_type = some s.modeType) ∧
    ((getSessionOptions s).voice_params = none ↔ s.voiceParams = []) ∧
    ((getSessionOptions s).stream_type = some s.selectedProvider) ∧
    ((getSessionOptions s).scene_mode = none ↔ s.sceneMode = none) ∧
    ((getSessionOptions s).e2e_type = none ↔ s.e2eType = none) ∧
    (getSessionOptions scenarioD =
      { avatar_id := "av1"
        duration := 10
        knowledge_id := none
        voice_id := none
        voice_url := none
        language := none
        mode_type := some 2
        background_url := none
        voice_params := none
        stream_type := some StreamProviderType.agora
        scene_mode := none
        e2e_type := none }) := by
  have hvp : (getSessionOptions s).voice_params = none ↔ s.voiceParams = [] := by
    simp only [getSessionOptions]
    cases s.voiceParams <;> simp
  exact ⟨rfl, rfl,
    strOrUndefined_eq_none_iff s.knowledgeId, strOrUndefined_ne_some_empty s.knowledgeId,
    strOrUndefined_eq_none_iff s.voiceId, strOrUndefined_ne_some_empty s.voiceId,
    strOrUndefined_eq_none_iff s.voiceUrl, strOrUndefined_ne_some_empty s.voiceUrl,
    strOrUndefined_eq_none_iff s.language, strOrUndefined_ne_some_empty s.language,
    strOrUndefined_eq_none_iff s.backgroundUrl, strOrUndefined_ne_some_empty s.backgroundUrl,
    rfl, hvp, rfl, Iff.rfl, Iff.rfl, rfl⟩

/-- Claim C2: validateConfiguration evaluates exactly the five rules in the
fixed source order, appending one fixed message per violated rule, with the
credential message depending on authMethod; at the Scenario A state the
error list is exactly the three required-field messages in order. -/
theorem validateConfiguration_rule_order (β : Type) (s : ConfigurationState β) :
    ((validateConfiguration s).errors =
      (if s.openapiHost = "" then ["OpenAPI host is required"] else []) ++
      (if s.openapiCredential = "" then
        [if s.authMethod = AuthMethod.token then "OpenAPI token is required" else "API key is required"]
       else []) ++
      (if s.avatarId = "" then ["Avatar ID is required"] else []) ++
      (if s.sessionDuration ≤ 0 then ["Session duration must be greater than 0"] else []) ++
      (if s.modeType < 1 ∨ s.modeType > 3 then ["Mode type must be between 1 and 3"] else [])) ∧
    ((validateConfiguration scenarioA).errors =
      ["OpenAPI host is required", "OpenAPI token is required", "Avatar ID is required"]) :=
  ⟨validationErrors_append_form s, rfl⟩

/-- Claim C3: validateConfiguration always returns a well-formed result (it
is a total function of the state), and the isValid flag is true exactly
when the errors list is empty. -/
theorem validateConfiguration_isValid_iff (β : Type) (s : ConfigurationState β) :
    (validateConfiguration s).isValid = true ↔ (validateConfiguration s).errors = [] := by
  simp [validateConfiguration, List.length_eq_zero]

/-- Claim C4: for every field f and value v of its type, setting f to v and
reading f back yields exactly v, and reading any other field g after the
write yields its previous value; in particular setting sceneMode leaves
e2eType unchanged. -/
theorem setField_roundtrip_frame (β : Type) (f g : Field) (hfg : g ≠ f)
    (v : FieldType β f) (s : ConfigurationState β) :
    getField f (setField f v s) = v ∧ getField g (setField f v s) = getField g s := by
  constructor
  · cases f <;> rfl
  · cases f <;> cases g <;> first | exact absurd rfl hfg | rfl

/-- Witness for C4: setSceneMode on the default state, read back sceneMode
and check e2eType is untouched. -/
theorem setField_roundtrip_frame_witness :
    getField Field.sceneMode
        (setField Field.sceneMode (some SceneMode.meeting) (configDefaults Unit)) =
      some SceneMode.meeting ∧
    getField Field.e2eType
        (setField Field.sceneMode (some SceneMode.meeting) (configDefaults Unit)) =
      getField Field.e2eType (configDefaults Unit) :=
  setField_roundtrip_frame Unit Field.sceneMode Field.e2eType (by decide)
    (some SceneMode.meeting) (configDefaults Unit)

/-- Claim C5: resetToDefaults maps every starting state, in particular every
environment-derived initial state, to the one fixed state of literal
constant defaults, and it is idempotent. -/
theorem resetToDefaults_constant_idempotent (β : Type) (s : ConfigurationState β) :
    (resetToDefaults s = configDefaults β) ∧
    (resetToDefaults (resetToDefaults s) = resetToDefaults s) ∧
    (∀ e : Env, resetToDefaults (initialState β e) = configDefaults β) :=
  ⟨rfl, rfl, fun _ => rfl⟩

/-- Claim C6: the partitioned snapshot contains every field of the
configuration record, so rehydrating from the snapshot of any state
restores that state in every field. -/
theorem persistence_roundtrip (β : Type) (s : ConfigurationState β) :
    rehydrate (partializeState s) = s :=
  rfl

/-- Claim C7: the mode-type error message is reported exactly when modeType
lies outside the closed range one to three, and the rule is independent of
the others: when only the mode-type rule is violated, the error list is
exactly that single message. -/
theorem modeType_rule (β : Type) (s : ConfigurationState β) :
    (("Mode type must be between 1 and 3") ∈ (validateConfiguration s).errors ↔
      (s.modeType < 1 ∨ s.modeType > 3)) ∧
    (s.openapiHost ≠ "" → s.openapiCredential ≠ "" → s.avatarId ≠ "" →
      0 < s.sessionDuration → (s.modeType < 1 ∨ s.modeType > 3) →
      (validateConfiguration s).errors = ["Mode type must be between 1 and 3"]) := by
  have h : (validateConfiguration s).errors = validationErrors s := rfl
  constructor
  · rw [h, validationErrors_append_form]
    by_cases h1 : s.openapiHost = "" <;> by_cases h2 : s.openapiCredential = "" <;>
      by_cases h3 : s.authMethod = AuthMethod.token <;> by_cases h4 : s.avatarId = "" <;>
      by_cases h5 : s.sessionDuration ≤ 0 <;>
      by_cases h6 : s.modeType < 1 ∨ s.modeType > 3 <;>
      simp [h1, h2, h3, h4, h5, h6]
  · intro hh1 hh2 hh3 hdur hmode
    have hd : ¬ s.sessionDuration ≤ 0 := not_le.mpr hdur
    rw [h, validationErrors_append_form]
    simp [hh1, hh2, hh3, hd, hmode]

/-- Witness for C7: at the Scenario C state (fully configured but modeType
5) validation reports exactly the mode-type message. -/
theorem modeType_rule_witness :
    (validateConfiguration scenarioC).errors = ["Mode type must be between 1 and 3"] :=
  (modeType_rule Unit scenarioC).2 (by decide) (by decide) (by decide) (by decide) (by decide)

/-- Claim C8: isFullyConfigured holds exactly when isApiConfigured and
isAvatarConfigured both hold. -/
theorem isFullyConfigured_iff (β : Type) (s : ConfigurationState β) :
    isFullyConfigured s = true ↔ (isApiConfigured s = true ∧ isAvatarConfigured s = true) := by
  simp [isFullyConfigured, isApiConfigured, isAvatarConfigured, and_assoc]

/-- Claim C9: getSessionOptions is total and performs no validation: the
required entries carry the stored values verbatim, including an empty
avatar id and a non-positive duration, as at the concrete invalid state. -/
theorem getSessionOptions_required_verbatim (β : Type) (s : ConfigurationState β) :
    ((getSessionOptions s).avatar_id = s.avatarId) ∧
    ((getSessionOptions s).duration = s.sessionDuration) ∧
    ((getSessionOptions scenarioInvalid).avatar_id = "") ∧
    ((getSessionOptions scenarioInvalid).duration = -3) :=
  ⟨rfl, rfl, rfl, rfl⟩

/-- Claim C10: immediately after resetToDefaults the payload carries
language en, and language is the only optional entry present: every other
optional entry of the freshly-reset payload is absent. -/
theorem reset_sessionOptions_language (β : Type) (s : ConfigurationState β) :
    ((getSessionOptions (resetToDefaults s)).language = some ("en")) ∧
    ((getSessionOptions (resetToDefaults s)).knowledge_id = none) ∧
    ((getSessionOptions (resetToDefaults s)).voice_id = none) ∧
    ((getSessionOptions (resetToDefaults s)).voice_url = none) ∧
    ((getSessionOptions (resetToDefaults s)).background_url = none) ∧
    ((getSessionOptions (resetToDefaults s)).voice_params = none) ∧
    ((getSessionOptions (resetToDefaults s)).scene_mode = none) ∧
    ((getSessionOptions (resetToDefaults s)).e2e_type = none) :=
  ⟨rfl, rfl, rfl, rfl, rfl, rfl, rfl, rfl⟩

end ConfigurationStore
